import Mathlib

/-!
A shallow embedding of the `sam33r/autocommit` command-line tool.

The repository contains two revisions of the same pipeline:
* `autocommit.py` — the OpenAI-only, size-budgeted variant
  (`get_character_limit`, manual diff truncation);
* `ai_commit_gen.py` — the litellm variant with provider inference
  (`get_provider`), prompt presets and per-provider credentials.

Both `main` functions are embedded as pure functions from an explicit
external world (environment variables, keyring contents, user input,
staged diff, model response, ...) to an exit code together with a trace
of external-effect events, in the order the Python code performs them.
Pure helpers (`get_provider`, `get_character_limit`, prompt
construction, truncation, response splitting) are translated directly.
External subprocess output (git log, git rev-parse) and the litellm
`trim_messages` library function are inputs of the world.
-/

namespace Autocommit

/-- A chat message, as in the `messages` list of both scripts. -/
structure Message where
  role : String
  content : String
deriving DecidableEq

/-- External-effect events, in program order. -/
inductive Event where
  /-- `os.getenv(name)` -/
  | envRead (name : String)
  /-- `os.environ[name] = value` (ai_commit_gen only) -/
  | envWrite (name value : String)
  /-- `openai.api_key = value` (autocommit only) -/
  | setApiKey (value : String)
  /-- `keyring.get_password(service, username)` -/
  | keyringGet (service username : String)
  /-- `keyring.set_password(service, username, value)` -/
  | keyringSet (service username value : String)
  /-- `input(question)` -/
  | askUser (question : String)
  /-- `getpass.getpass(question)` -/
  | getpass (question : String)
  /-- `os.popen("git diff --staged --no-color").read()` -/
  | gitDiffRead
  /-- the completion request sent to the model API -/
  | modelCall (model : String) (messages : List Message) (api_base : Option String)
  /-- `print(s)` -/
  | printOut (s : String)
  /-- `logging.debug(s)` -/
  | logDebug (s : String)
  /-- `subprocess.run(argv, check=True)` for the final commit -/
  | runCommit (argv : List String)
deriving DecidableEq

/-- Events that belong to credential resolution (reads/writes of the
environment, the keyring, and interactive key entry). -/
def Event.isCredEvent : Event → Bool
  | .envRead _ => true
  | .envWrite _ _ => true
  | .setApiKey _ => true
  | .keyringGet _ _ => true
  | .keyringSet _ _ _ => true
  | .askUser _ => true
  | .getpass _ => true
  | _ => false

/-- The staged-diff read event. -/
def Event.isGitDiffRead : Event → Bool
  | .gitDiffRead => true
  | _ => false

/-- A model-completion request event. -/
def Event.isModelCall : Event → Bool
  | .modelCall _ _ _ => true
  | _ => false

/-- A read from or write to the persistent secret store. -/
def Event.isKeyringAccess : Event → Bool
  | .keyringGet _ _ => true
  | .keyringSet _ _ _ => true
  | _ => false

/-- Events that can occur during or before credential resolution
(used to show nothing interesting hides in a credential trace). -/
def Event.isEarly : Event → Bool
  | .envRead _ => true
  | .envWrite _ _ => true
  | .setApiKey _ => true
  | .keyringGet _ _ => true
  | .keyringSet _ _ _ => true
  | .askUser _ => true
  | .getpass _ => true
  | .printOut _ => true
  | _ => false

/-- Check a predicate on the argv of every commit invocation event. -/
def Event.commitArgvAll (p : List String → Bool) : Event → Bool
  | .runCommit argv => p argv
  | _ => true

/-- Every completion request in sight uses the fixed local endpoint. -/
def Event.usesLocalEndpoint : Event → Bool
  | .modelCall _ _ api_base => api_base == some "http://localhost:11434"
  | _ => true

/-- The external world a single run interacts with. -/
structure World where
  /-- environment variables -/
  env : String → Option String
  /-- the secret store: service → username → stored secret -/
  keyring : String → String → Option String
  /-- the answer typed at the `input` y/n question -/
  askUserAnswer : String
  /-- the secret typed at the `getpass` prompt -/
  getpassSecret : String
  /-- output of `git diff --staged --no-color` -/
  stagedDiff : String
  /-- basename of the `git rev-parse --show-toplevel` output,
  `none` when that subprocess fails -/
  rootDirRaw : Option String
  /-- decoded output of `git log -n N --pretty=format:%B`,
  `none` when that subprocess fails -/
  lastCommitsRaw : Option String
  /-- behaviour of the external litellm `trim_messages` function -/
  trimMessages : List Message → String → List Message
  /-- result of the completion call: response text, or the error raised -/
  completionResult : Except String String
  /-- whether `subprocess.run(["git","commit",...], check=True)` succeeds -/
  commitOk : Bool

/-- CLI arguments of `ai_commit_gen.py` (argparse defaults). -/
structure AiArgs where
  prompt : String := "default"
  commit : Bool := false
  model : String := "gpt-3.5-turbo"
  debug : Bool := false

/-- CLI arguments of `autocommit.py` (argparse defaults; `--prompt`
has no default, so it is `None` when not given). -/
structure AcArgs where
  prompt : Option String := none
  commit : Bool := false
  model : String := "gpt-3.5-turbo"
  debug : Bool := false

/-- Python `s.startswith(pre)`, structurally (kernel-reducible). -/
def pyStartsWith (s pre : String) : Bool := pre.data.isPrefixOf s.data

/-- Python `s.lower()` (ASCII case mapping), structurally. -/
def pyLower (s : String) : String := ⟨s.data.map Char.toLower⟩

/-- Python `s.strip()`: remove leading and trailing whitespace. -/
def pyStrip (s : String) : String :=
  ⟨((s.data.dropWhile Char.isWhitespace).reverse.dropWhile Char.isWhitespace).reverse⟩

/-- Python `s.capitalize()`: first character upper-cased, the rest
lower-cased (ASCII case mapping), structurally. -/
def pyCapitalize (s : String) : String :=
  match s.data with
  | [] => ⟨[]⟩
  | c :: cs => ⟨c.toUpper :: cs.map Char.toLower⟩

/-- Python slicing `s[:n]`: the first `n` characters. -/
def pySlice (s : String) (n : Nat) : String := ⟨s.data.take n⟩

/-- `ai_commit_gen.get_provider`, with the `print`/`sys.exit(1)` arm of
the source returned as `none` and performed by the caller. -/
def get_provider (model : String) : Option String :=
  if pyStartsWith model "gpt" then some "openai"
  else if pyStartsWith model "claude" then some "anthropic"
  else if pyStartsWith model "ollama/" then some "ollama"
  else none

/-- `autocommit.get_character_limit`, with the `print`/`sys.exit(1)` arm
of the source returned as `none` and performed by the caller. -/
def get_character_limit (model : String) : Option Nat :=
  if model = "gpt-3.5-turbo" then some 12000
  else if model = "gpt-4" then some 25000
  else if model = "gpt-4-32k" then some 120000
  else none

/-- Auxiliary scan for `pySplit`: `fuel` bounds the number of steps
(one character is consumed per step), so the recursion is structural
and reduces inside the kernel. `acc` is the current chunk, reversed. -/
def pySplitAux (sep : List Char) : Nat → List Char → List Char → List (List Char)
  | _, [], acc => [acc.reverse]
  | 0, rest, acc => [acc.reverse ++ rest]
  | Nat.succ fuel, c :: cs, acc =>
    if sep.isPrefixOf (c :: cs) then
      acc.reverse :: pySplitAux sep fuel ((c :: cs).drop sep.length) []
    else
      pySplitAux sep fuel cs (c :: acc)

/-- Python `s.split(sep)` for a non-empty separator `sep`: cut `s` at
every non-overlapping occurrence of `sep`, keeping empty chunks. -/
def pySplit (s sep : String) : List String :=
  if sep = "" then [s]
  else (pySplitAux sep.data s.data.length s.data []).map String.mk

/-- `ai_commit_gen.get_last_commits`, over the raw decoded output of the
`git log` subprocess (`none` = `CalledProcessError`). -/
def ai_get_last_commits (raw : Option String) : String :=
  match raw with
  | none => ""
  | some out =>
    let commit_messages := pySplit out "\n\n"
    let commit_messages := commit_messages.enum.map
      (fun p => "Example " ++ toString (p.1 + 1) ++ " - " ++ p.2)
    let commit_messages := String.intercalate "\n\n" commit_messages
    "Recent commits:\n" ++ commit_messages ++ "\n\n"

/-- `autocommit.get_last_commits`, over the raw decoded output of the
`git log` subprocess (`none` = `CalledProcessError`). -/
def ac_get_last_commits (raw : Option String) : String :=
  match raw with
  | none => ""
  | some commit_messages => "Recent commits:\n" ++ commit_messages ++ "\n\n"

/-- `autocommit.get_root_dir_name`, over the basename of the stripped
`git rev-parse --show-toplevel` output (`none` = `CalledProcessError`). -/
def get_root_dir_name (raw : Option String) : String :=
  match raw with
  | none => ""
  | some basename => "Repository root dir: " ++ basename ++ "\n\n"

/-- `prompts["default"]` of ai_commit_gen.py. -/
def prompts_default : String :=
  "As your response, please provide a concise git commit message for the changes described below.\nThe first paragraph of your response should be a single short line less than 50 characters. \nAdd more paragraphs that describe the changes in more detail only if necessary. Prefer to use bullet lists instead of long paragraphs."

/-- `prompts["oneliner"]` of ai_commit_gen.py. -/
def prompts_oneliner : String :=
  "Please provide a one-liner git commit message for the changes described below. Your response will be used as the commit message."

/-- `prompts["refactoring"]` of ai_commit_gen.py. -/
def prompts_refactoring : String :=
  "Please provide a detailed git commit message that explains the refactoring changes described below. Please detail every major change as a separate bullet point. Your response will be used as the commit message."

/-- `prompts["documentation"]` of ai_commit_gen.py. -/
def prompts_documentation : String :=
  "Please provide a git commit message that explains the documentation changes described below."

/-- `prompts["mimic"]` of ai_commit_gen.py, over the value of
`get_last_commits()`. -/
def prompts_mimic (last_commits : String) : String :=
  "Please provide a git commit message for the changes described below. Your message should closely mimic the style and structure of the following recent git commit messages in this repository: \n" ++ last_commits

/-- The `prompts` dict of ai_commit_gen.py: `some` on its five keys
(the chosen lambda already applied), `none` otherwise. -/
def prompts (name : String) (last_commits : String) : Option String :=
  if name = "default" then some prompts_default
  else if name = "oneliner" then some prompts_oneliner
  else if name = "refactoring" then some prompts_refactoring
  else if name = "documentation" then some prompts_documentation
  else if name = "mimic" then some (prompts_mimic last_commits)
  else none

/-- Prompt selection of `ai_commit_gen.main` (lines 124-127):
a preset name picks its preset, any other non-empty string is used
literally, and a falsy (empty) string falls back to the default. -/
def ai_choose_prompt (args_prompt : String) (last_commits : String) : String :=
  match prompts args_prompt last_commits with
  | some p => p
  | none => if args_prompt ≠ "" then args_prompt else prompts_default

/-- The `user_message` f-string of `ai_commit_gen.main` (lines 129-133). -/
def ai_user_message (prompt git_diff : String) : String :=
  prompt ++ "\n\nOutput of \"git diff --staged\": \n" ++ git_diff ++ "\n"

/-- The truncation marker appended by `autocommit.main` (line 93). -/
def truncation_marker (char_limit : Nat) : String :=
  " (cut off at " ++ toString char_limit ++ " characters)."

/-- Diff truncation of `autocommit.main` (lines 92-93). -/
def truncate_diff (git_diff : String) (char_limit : Nat) : String :=
  if git_diff.length > char_limit then
    pySlice git_diff char_limit ++ truncation_marker char_limit
  else git_diff

/-- The default prompt f-string template of `autocommit.main`
(lines 100-110), over the already-computed helper outputs. -/
def ac_prompt_template (root_dir last_commits git_diff : String) : String :=
  "As your response, please provide a concise git commit message for the changes described below.\n\nThe first paragraph of your response should be a single short line to serve as the title of the commit. \n\nAdd more paragraphs that describe the changes in more detail only if necessary. Prefer to use bullet lists instead of long paragraphs.\n\n"
  ++ root_dir ++ last_commits
  ++ "\n\nOutput of \"git diff --staged\": \n" ++ git_diff ++ "\n"

/-- Prompt selection of `autocommit.main` (lines 96-112):
`args.prompt if args.prompt else template` — `None` and the empty
string are both falsy. -/
def ac_build_prompt (args_prompt : Option String) (root_dir last_commits git_diff : String) :
    String :=
  match args_prompt with
  | some p => if p ≠ "" then p else ac_prompt_template root_dir last_commits git_diff
  | none => ac_prompt_template root_dir last_commits git_diff

/-- The per-provider environment variable of `ai_commit_gen.main`
(line 96). -/
def env_var_for (provider : String) : String :=
  if provider = "openai" then "OPENAI_API_KEY" else "ANTHROPIC_API_KEY"

/-- Credential-resolution block of `ai_commit_gen.main` (lines 94-111):
the event trace it produces and `some code` when it calls
`sys.exit(code)`. The resolved key is exported, stripped, into the
provider's environment variable. -/
def ai_resolve_credentials (provider : String) (w : World) : List Event × Option Nat :=
  if provider ≠ "ollama" then
    let env_var := env_var_for provider
    match w.env env_var with
    | some api_key =>
      ([Event.envRead env_var, Event.envWrite env_var (pyStrip api_key)], none)
    | none =>
      match w.keyring "ai_commit_gen" (provider ++ "_key") with
      | some api_key =>
        ([Event.envRead env_var, Event.keyringGet "ai_commit_gen" (provider ++ "_key"),
          Event.envWrite env_var (pyStrip api_key)], none)
      | none =>
        if pyLower w.askUserAnswer = "y" then
          ([Event.envRead env_var, Event.keyringGet "ai_commit_gen" (provider ++ "_key"),
            Event.askUser ("No " ++ pyCapitalize provider ++
              " API key found. Would you like to store one in the keyring? (y/n) "),
            Event.getpass ("Enter your " ++ pyCapitalize provider ++ " API key: "),
            Event.keyringSet "ai_commit_gen" (provider ++ "_key") w.getpassSecret,
            Event.envWrite env_var (pyStrip w.getpassSecret)], none)
        else
          ([Event.envRead env_var, Event.keyringGet "ai_commit_gen" (provider ++ "_key"),
            Event.askUser ("No " ++ pyCapitalize provider ++
              " API key found. Would you like to store one in the keyring? (y/n) "),
            Event.printOut ("No " ++ pyCapitalize provider ++ " API key provided. Exiting.")],
           some 1)
  else ([], none)

/-- `ai_commit_gen.main` after credential resolution (lines 113-165):
diff read, prompt construction, completion call, output. `evs` is the
trace accumulated so far. -/
def ai_main_rest (args : AiArgs) (w : World) (provider : String) (evs : List Event) :
    Nat × List Event :=
  let messages : List Message := [⟨"system", "You are a helpful assistant."⟩]
  let git_diff := w.stagedDiff
  let evs := evs ++ [Event.gitDiffRead]
  if git_diff = "" then
    (0, evs ++ [Event.printOut "No changes to commit."])
  else
    let prompt := ai_choose_prompt args.prompt (ai_get_last_commits w.lastCommitsRaw)
    let user_message := ai_user_message prompt git_diff
    let messages := messages ++ [⟨"user", user_message⟩]
    let messages := w.trimMessages messages args.model
    let api_base : Option String :=
      if provider = "ollama" then some "http://localhost:11434" else none
    let evs := evs ++ [Event.modelCall args.model messages api_base]
    match w.completionResult with
    | Except.error e =>
      (1, evs ++ [Event.logDebug ("Error calling LiteLLM API: " ++ e)])
    | Except.ok response_content =>
      if args.commit then
        let commit_message := (pySplit response_content "\n\n").map (fun p => "-m " ++ p)
        let evs := evs ++ [Event.runCommit (["git", "commit"] ++ commit_message)]
        if w.commitOk then (0, evs) else (1, evs)
      else
        (0, evs ++ [Event.printOut response_content])

/-- `ai_commit_gen.main` (lines 64-165): exit code and event trace. -/
def ai_commit_gen_main (args : AiArgs) (w : World) : Nat × List Event :=
  match get_provider args.model with
  | none => (1, [Event.printOut ("Invalid model: " ++ args.model)])
  | some provider =>
    match ai_resolve_credentials provider w with
    | (evs, some code) => (code, evs)
    | (evs, none) => ai_main_rest args w provider evs

/-- Credential-resolution block of `autocommit.main` (lines 64-78):
the event trace it produces and `some code` when it calls
`sys.exit(code)`. The resolved key is assigned, unmodified, to
`openai.api_key` (line 78). -/
def ac_resolve_credentials (w : World) : List Event × Option Nat :=
  match w.env "OPENAI_KEY" with
  | some api_key =>
    ([Event.envRead "OPENAI_KEY", Event.setApiKey api_key], none)
  | none =>
    match w.keyring "autocommit" "openai_key" with
    | some api_key =>
      ([Event.envRead "OPENAI_KEY", Event.keyringGet "autocommit" "openai_key",
        Event.setApiKey api_key], none)
    | none =>
      if pyLower w.askUserAnswer = "y" then
        ([Event.envRead "OPENAI_KEY", Event.keyringGet "autocommit" "openai_key",
          Event.askUser "No OpenAI API key found. Would you like to store one in the keyring? (y/n) ",
          Event.getpass "Enter your OpenAI API key: ",
          Event.keyringSet "autocommit" "openai_key" w.getpassSecret,
          Event.setApiKey w.getpassSecret], none)
      else
        ([Event.envRead "OPENAI_KEY", Event.keyringGet "autocommit" "openai_key",
          Event.askUser "No OpenAI API key found. Would you like to store one in the keyring? (y/n) ",
          Event.printOut "No OpenAI API key provided. Exiting."], some 1)

/-- `autocommit.main` after credential resolution (lines 80-137):
diff read, model lookup, empty-diff check (in that source order),
truncation, prompt construction, completion call, output. `evs` is
the trace accumulated so far. -/
def ac_main_rest (args : AcArgs) (w : World) (evs : List Event) : Nat × List Event :=
  let messages : List Message := [⟨"system", "You are a helpful assistant."⟩]
  let git_diff := w.stagedDiff
  let evs := evs ++ [Event.gitDiffRead]
  match get_character_limit args.model with
  | none => (1, evs ++ [Event.printOut ("Invalid model: " ++ args.model)])
  | some char_limit =>
    if git_diff = "" then
      (0, evs ++ [Event.printOut "No changes to commit."])
    else
      let git_diff := truncate_diff git_diff char_limit
      let prompt := ac_build_prompt args.prompt (get_root_dir_name w.rootDirRaw)
        (ac_get_last_commits w.lastCommitsRaw) git_diff
      let messages := messages ++ [⟨"user", prompt⟩]
      let evs := evs ++ [Event.modelCall args.model messages none]
      match w.completionResult with
      | Except.error e =>
        (1, evs ++ [Event.logDebug ("Error calling OpenAI API: " ++ e)])
      | Except.ok response_content =>
        if args.commit then
          let commit_message := (pySplit response_content "\n\n").map (fun p => "-m " ++ p)
          let evs := evs ++ [Event.runCommit (["git", "commit"] ++ commit_message)]
          if w.commitOk then (0, evs) else (1, evs)
        else
          (0, evs ++ [Event.printOut response_content])

/-- `autocommit.main` (lines 45-137): exit code and event trace.
Note the source order: credentials (64-78), diff read (84), model
lookup (85), empty-diff check (88). -/
def autocommit_main (args : AcArgs) (w : World) : Nat × List Event :=
  match ac_resolve_credentials w with
  | (evs, some code) => (code, evs)
  | (evs, none) => ac_main_rest args w evs

/-- `true` iff no credential event occurs after the (first) staged-diff
read in a trace. -/
def no_cred_after_diff (l : List Event) : Bool :=
  ((l.dropWhile fun e => !e.isGitDiffRead).drop 1).all fun e => !e.isCredEvent

/-- Default CLI arguments of ai_commit_gen.py. -/
def aiDefaultArgs : AiArgs := {}

/-- Default ai_commit_gen arguments with the commit flag set. -/
def aiCommitArgs : AiArgs := { commit := true }

/-- An ollama-prefixed model identifier. -/
def aiOllamaArgs : AiArgs := { model := "ollama/llama2" }

/-- A model identifier no provider rule of `get_provider` matches. -/
def aiBadModelArgs : AiArgs := { model := "llama2" }

/-- Default CLI arguments of autocommit.py. -/
def acDefaultArgs : AcArgs := {}

/-- Default autocommit arguments with the commit flag set. -/
def acCommitArgs : AcArgs := { commit := true }

/-- A model identifier the `get_character_limit` table does not know. -/
def acBadModelArgs : AcArgs := { model := "gpt-5" }

/-- Baseline world: no credentials anywhere, enrollment declined,
non-empty staged diff, failing metadata subprocesses, identity
trimming, a successful one-line response, committing succeeds. -/
def baseWorld : World where
  env := fun _ => none
  keyring := fun _ _ => none
  askUserAnswer := "n"
  getpassSecret := "typed-secret"
  stagedDiff := "diff --git a/f b/f"
  rootDirRaw := none
  lastCommitsRaw := none
  trimMessages := fun ms _ => ms
  completionResult := Except.ok "Done"
  commitOk := true

/-- `baseWorld` with both programs' API-key variables set. -/
def envKeyWorld : World :=
  { baseWorld with
    env := fun v =>
      if v = "OPENAI_API_KEY" then some "sk-111"
      else if v = "OPENAI_KEY" then some "sk-222" else none }

/-- `baseWorld` with surrounding whitespace on both keys. -/
def paddedKeyWorld : World :=
  { baseWorld with
    env := fun v =>
      if v = "OPENAI_API_KEY" then some " sk-111 "
      else if v = "OPENAI_KEY" then some " sk-222 " else none }

/-- `envKeyWorld` answering with a three-paragraph response. -/
def titleWorld : World :=
  { envKeyWorld with completionResult := Except.ok "Title\n\nBody line 1\n\nBody line 2" }

/-- `envKeyWorld` with an empty staged diff. -/
def emptyDiffWorld : World := { envKeyWorld with stagedDiff := "" }

/-- `envKeyWorld` whose completion call raises. -/
def apiErrorWorld : World := { envKeyWorld with completionResult := Except.error "boom" }

/-- No stored credentials, the user accepts interactive enrollment,
and the staged diff is empty. -/
def enrollEmptyDiffWorld : World :=
  { baseWorld with askUserAnswer := "y", stagedDiff := "" }

/-- No stored credentials, the user accepts interactive enrollment and
types a secret with surrounding whitespace; the staged diff is
non-empty. -/
def enrollWorld : World :=
  { baseWorld with askUserAnswer := "y", getpassSecret := " entered " }

/-! ### Generic facts about the credential blocks and the main branches -/

theorem list_allImp {α : Type} {p q : α → Bool} (h : ∀ e, p e = true → q e = true)
    {l : List α} (hl : l.all p = true) : l.all q = true := by
  rw [List.all_eq_true] at hl ⊢
  exact fun e he => h e (hl e he)

theorem ai_resolve_credentials_all_isEarly (p : String) (w : World) :
    (ai_resolve_credentials p w).1.all Event.isEarly = true := by
  unfold ai_resolve_credentials
  dsimp only
  repeat' split
  all_goals rfl

theorem ai_resolve_credentials_exit (p : String) (w : World) :
    (ai_resolve_credentials p w).2 = none ∨ (ai_resolve_credentials p w).2 = some 1 := by
  unfold ai_resolve_credentials
  dsimp only
  repeat' split
  all_goals first | (left; rfl) | (right; rfl)

theorem ac_resolve_credentials_all_isEarly (w : World) :
    (ac_resolve_credentials w).1.all Event.isEarly = true := by
  unfold ac_resolve_credentials
  repeat' split
  all_goals rfl

theorem ac_resolve_credentials_exit (w : World) :
    (ac_resolve_credentials w).2 = none ∨ (ac_resolve_credentials w).2 = some 1 := by
  unfold ac_resolve_credentials
  repeat' split
  all_goals first | (left; rfl) | (right; rfl)

theorem isEarly_not_gitDiffRead (e : Event) (h : Event.isEarly e = true) :
    Event.isGitDiffRead e = false := by
  cases e <;> simp_all [Event.isEarly, Event.isGitDiffRead]

theorem isEarly_not_modelCall (e : Event) (h : Event.isEarly e = true) :
    Event.isModelCall e = false := by
  cases e <;> simp_all [Event.isEarly, Event.isModelCall]

theorem isEarly_commitArgvAll (p : List String → Bool) (e : Event)
    (h : Event.isEarly e = true) : Event.commitArgvAll p e = true := by
  cases e <;> simp_all [Event.isEarly, Event.commitArgvAll]

theorem isEarly_usesLocalEndpoint (e : Event) (h : Event.isEarly e = true) :
    Event.usesLocalEndpoint e = true := by
  cases e <;> simp_all [Event.isEarly, Event.usesLocalEndpoint]

theorem not_keyringAccess_of_not_cred (e : Event) (h : Event.isCredEvent e = false) :
    Event.isKeyringAccess e = false := by
  cases e <;> simp_all [Event.isCredEvent, Event.isKeyringAccess]


theorem ai_main_spec (a : AiArgs) (w : World) :
    (get_provider a.model = none ∧
      ai_commit_gen_main a w = (1, [Event.printOut ("Invalid model: " ++ a.model)])) ∨
    (∃ p, get_provider a.model = some p ∧
      ((∃ evs, ai_resolve_credentials p w = (evs, some 1) ∧
          ai_commit_gen_main a w = (1, evs)) ∨
       (∃ evs, ai_resolve_credentials p w = (evs, none) ∧
          ai_commit_gen_main a w = ai_main_rest a w p evs))) := by
  cases hp : get_provider a.model with
  | none =>
    left
    exact ⟨rfl, by unfold ai_commit_gen_main; rw [hp]⟩
  | some p =>
    right
    refine ⟨p, rfl, ?_⟩
    have hexit := ai_resolve_credentials_exit p w
    rcases hc : ai_resolve_credentials p w with ⟨evs, oc⟩
    rw [hc] at hexit
    cases oc with
    | none =>
      right
      exact ⟨evs, rfl, by unfold ai_commit_gen_main; rw [hp]; dsimp only; rw [hc]⟩
    | some code =>
      left
      have hcode : code = 1 := by
        rcases hexit with h | h <;> simp_all
      subst hcode
      exact ⟨evs, rfl, by unfold ai_commit_gen_main; rw [hp]; dsimp only; rw [hc]⟩

theorem ac_main_spec (a : AcArgs) (w : World) :
    (∃ evs, ac_resolve_credentials w = (evs, some 1) ∧ autocommit_main a w = (1, evs)) ∨
    (∃ evs, ac_resolve_credentials w = (evs, none) ∧
       autocommit_main a w = ac_main_rest a w evs) := by
  have hexit := ac_resolve_credentials_exit w
  rcases hc : ac_resolve_credentials w with ⟨evs, oc⟩
  rw [hc] at hexit
  cases oc with
  | none =>
    right
    exact ⟨evs, rfl, by unfold autocommit_main; rw [hc]⟩
  | some code =>
    left
    have hcode : code = 1 := by rcases hexit with h | h <;> simp_all
    subst hcode
    exact ⟨evs, rfl, by unfold autocommit_main; rw [hc]⟩

theorem ai_main_rest_spec (a : AiArgs) (w : World) (p : String) (evs : List Event) :
    (w.stagedDiff = "" ∧
      ai_main_rest a w p evs =
        (0, evs ++ [Event.gitDiffRead, Event.printOut "No changes to commit."])) ∨
    (w.stagedDiff ≠ "" ∧
      ∃ msgs base,
        msgs = w.trimMessages
          [⟨"system", "You are a helpful assistant."⟩,
           ⟨"user", ai_user_message
              (ai_choose_prompt a.prompt (ai_get_last_commits w.lastCommitsRaw))
              w.stagedDiff⟩] a.model ∧
        base = (if p = "ollama" then some "http://localhost:11434" else none) ∧
        ((∃ e, w.completionResult = Except.error e ∧
            ai_main_rest a w p evs =
              (1, evs ++ [Event.gitDiffRead, Event.modelCall a.model msgs base,
                Event.logDebug ("Error calling LiteLLM API: " ++ e)])) ∨
         (∃ resp, w.completionResult = Except.ok resp ∧ a.commit = true ∧
            ai_main_rest a w p evs =
              ((if w.commitOk then 0 else 1),
               evs ++ [Event.gitDiffRead, Event.modelCall a.model msgs base,
                 Event.runCommit
                   (["git", "commit"] ++ (pySplit resp "\n\n").map (fun q => "-m " ++ q))])) ∨
         (∃ resp, w.completionResult = Except.ok resp ∧ a.commit = false ∧
            ai_main_rest a w p evs =
              (0, evs ++ [Event.gitDiffRead, Event.modelCall a.model msgs base,
                Event.printOut resp])))) := by
  by_cases hd : w.stagedDiff = ""
  · left
    refine ⟨hd, ?_⟩
    unfold ai_main_rest
    simp [hd]
  · right
    refine ⟨hd, _, _, rfl, rfl, ?_⟩
    cases hr : w.completionResult with
    | error e =>
      left
      refine ⟨e, rfl, ?_⟩
      unfold ai_main_rest
      simp [hd, hr]
    | ok resp =>
      cases hc : a.commit with
      | false =>
        right; right
        refine ⟨resp, rfl, rfl, ?_⟩
        unfold ai_main_rest
        simp [hd, hr, hc]
      | true =>
        right; left
        refine ⟨resp, rfl, rfl, ?_⟩
        unfold ai_main_rest
        cases hk : w.commitOk <;> simp [hd, hr, hc, hk]

theorem ac_main_rest_spec (a : AcArgs) (w : World) (evs : List Event) :
    (get_character_limit a.model = none ∧
      ac_main_rest a w evs =
        (1, evs ++ [Event.gitDiffRead, Event.printOut ("Invalid model: " ++ a.model)])) ∨
    (∃ char_limit, get_character_limit a.model = some char_limit ∧
      ((w.stagedDiff = "" ∧
         ac_main_rest a w evs =
           (0, evs ++ [Event.gitDiffRead, Event.printOut "No changes to commit."])) ∨
       (w.stagedDiff ≠ "" ∧
         ∃ msgs, msgs = ([⟨"system", "You are a helpful assistant."⟩,
             ⟨"user", ac_build_prompt a.prompt (get_root_dir_name w.rootDirRaw)
               (ac_get_last_commits w.lastCommitsRaw)
               (truncate_diff w.stagedDiff char_limit)⟩] : List Message) ∧
         ((∃ e, w.completionResult = Except.error e ∧
             ac_main_rest a w evs =
               (1, evs ++ [Event.gitDiffRead, Event.modelCall a.model msgs none,
                 Event.logDebug ("Error calling OpenAI API: " ++ e)])) ∨
          (∃ resp, w.completionResult = Except.ok resp ∧ a.commit = true ∧
             ac_main_rest a w evs =
               ((if w.commitOk then 0 else 1),
                evs ++ [Event.gitDiffRead, Event.modelCall a.model msgs none,
                  Event.runCommit
                    (["git", "commit"] ++ (pySplit resp "\n\n").map (fun q => "-m " ++ q))])) ∨
          (∃ resp, w.completionResult = Except.ok resp ∧ a.commit = false ∧
             ac_main_rest a w evs =
               (0, evs ++ [Event.gitDiffRead, Event.modelCall a.model msgs none,
                 Event.printOut resp])))))) := by
  cases hl : get_character_limit a.model with
  | none =>
    left
    refine ⟨rfl, ?_⟩
    unfold ac_main_rest
    simp [hl]
  | some char_limit =>
    right
    refine ⟨char_limit, rfl, ?_⟩
    by_cases hd : w.stagedDiff = ""
    · left
      refine ⟨hd, ?_⟩
      unfold ac_main_rest
      simp [hl, hd]
    · right
      refine ⟨hd, _, rfl, ?_⟩
      cases hr : w.completionResult with
      | error e =>
        left
        refine ⟨e, rfl, ?_⟩
        unfold ac_main_rest
        simp [hl, hd, hr]
      | ok resp =>
        cases hc : a.commit with
        | false =>
          right; right
          refine ⟨resp, rfl, rfl, ?_⟩
          unfold ac_main_rest
          simp [hl, hd, hr, hc]
        | true =>
          right; left
          refine ⟨resp, rfl, rfl, ?_⟩
          unfold ac_main_rest
          cases hk : w.commitOk <;> simp [hl, hd, hr, hc, hk]

theorem ai_resolve_credentials_ollama (w : World) :
    ai_resolve_credentials "ollama" w = ([], none) := by
  unfold ai_resolve_credentials
  simp

theorem ai_resolve_credentials_env (p : String) (w : World) (k : String)
    (hp : p ≠ "ollama") (h : w.env (env_var_for p) = some k) :
    ai_resolve_credentials p w =
      ([Event.envRead (env_var_for p), Event.envWrite (env_var_for p) (pyStrip k)], none) := by
  unfold ai_resolve_credentials
  simp [hp, h]

theorem ac_resolve_credentials_env (w : World) (k : String)
    (h : w.env "OPENAI_KEY" = some k) :
    ac_resolve_credentials w = ([Event.envRead "OPENAI_KEY", Event.setApiKey k], none) := by
  unfold ac_resolve_credentials
  simp [h]

theorem ai_resolve_credentials_keyring (p : String) (w : World) (k : String)
    (hp : p ≠ "ollama") (henv : w.env (env_var_for p) = none)
    (hkey : w.keyring "ai_commit_gen" (p ++ "_key") = some k) :
    ai_resolve_credentials p w =
      ([Event.envRead (env_var_for p), Event.keyringGet "ai_commit_gen" (p ++ "_key"),
        Event.envWrite (env_var_for p) (pyStrip k)], none) := by
  unfold ai_resolve_credentials
  simp [hp, henv, hkey]

theorem ai_resolve_credentials_enroll (p : String) (w : World)
    (hp : p ≠ "ollama") (henv : w.env (env_var_for p) = none)
    (hkey : w.keyring "ai_commit_gen" (p ++ "_key") = none)
    (hans : pyLower w.askUserAnswer = "y") :
    ai_resolve_credentials p w =
      ([Event.envRead (env_var_for p), Event.keyringGet "ai_commit_gen" (p ++ "_key"),
        Event.askUser ("No " ++ pyCapitalize p ++
          " API key found. Would you like to store one in the keyring? (y/n) "),
        Event.getpass ("Enter your " ++ pyCapitalize p ++ " API key: "),
        Event.keyringSet "ai_commit_gen" (p ++ "_key") w.getpassSecret,
        Event.envWrite (env_var_for p) (pyStrip w.getpassSecret)], none) := by
  unfold ai_resolve_credentials
  simp [hp, henv, hkey, hans]

theorem ai_resolve_credentials_decline (p : String) (w : World)
    (hp : p ≠ "ollama") (henv : w.env (env_var_for p) = none)
    (hkey : w.keyring "ai_commit_gen" (p ++ "_key") = none)
    (hans : ¬ pyLower w.askUserAnswer = "y") :
    ai_resolve_credentials p w =
      ([Event.envRead (env_var_for p), Event.keyringGet "ai_commit_gen" (p ++ "_key"),
        Event.askUser ("No " ++ pyCapitalize p ++
          " API key found. Would you like to store one in the keyring? (y/n) "),
        Event.printOut ("No " ++ pyCapitalize p ++ " API key provided. Exiting.")],
       some 1) := by
  unfold ai_resolve_credentials
  simp [hp, henv, hkey, hans]

theorem ac_resolve_credentials_keyring (w : World) (k : String)
    (henv : w.env "OPENAI_KEY" = none)
    (hkey : w.keyring "autocommit" "openai_key" = some k) :
    ac_resolve_credentials w =
      ([Event.envRead "OPENAI_KEY", Event.keyringGet "autocommit" "openai_key",
        Event.setApiKey k], none) := by
  unfold ac_resolve_credentials
  simp [henv, hkey]

theorem ac_resolve_credentials_enroll (w : World)
    (henv : w.env "OPENAI_KEY" = none)
    (hkey : w.keyring "autocommit" "openai_key" = none)
    (hans : pyLower w.askUserAnswer = "y") :
    ac_resolve_credentials w =
      ([Event.envRead "OPENAI_KEY", Event.keyringGet "autocommit" "openai_key",
        Event.askUser "No OpenAI API key found. Would you like to store one in the keyring? (y/n) ",
        Event.getpass "Enter your OpenAI API key: ",
        Event.keyringSet "autocommit" "openai_key" w.getpassSecret,
        Event.setApiKey w.getpassSecret], none) := by
  unfold ac_resolve_credentials
  simp [henv, hkey, hans]

theorem ac_resolve_credentials_decline (w : World)
    (henv : w.env "OPENAI_KEY" = none)
    (hkey : w.keyring "autocommit" "openai_key" = none)
    (hans : ¬ pyLower w.askUserAnswer = "y") :
    ac_resolve_credentials w =
      ([Event.envRead "OPENAI_KEY", Event.keyringGet "autocommit" "openai_key",
        Event.askUser "No OpenAI API key found. Would you like to store one in the keyring? (y/n) ",
        Event.printOut "No OpenAI API key provided. Exiting."], some 1) := by
  unfold ac_resolve_credentials
  simp [henv, hkey, hans]

theorem ai_envWrite_block_mem (p : String) (w : World) (name v : String)
    (h : Event.envWrite name v ∈ (ai_resolve_credentials p w).1) :
    name = env_var_for p ∧
    ∃ secret, (w.env (env_var_for p) = some secret ∨
        w.keyring "ai_commit_gen" (p ++ "_key") = some secret ∨
        secret = w.getpassSecret) ∧
      v = pyStrip secret := by
  by_cases hpo : p = "ollama"
  · subst hpo
    rw [ai_resolve_credentials_ollama] at h
    simp at h
  · rcases henv : w.env (env_var_for p) with _ | k
    · rcases hkey : w.keyring "ai_commit_gen" (p ++ "_key") with _ | k2
      · by_cases hans : pyLower w.askUserAnswer = "y"
        · rw [ai_resolve_credentials_enroll p w hpo henv hkey hans] at h
          simp at h
          exact ⟨h.1, w.getpassSecret, Or.inr (Or.inr rfl), h.2⟩
        · rw [ai_resolve_credentials_decline p w hpo henv hkey hans] at h
          simp at h
      · rw [ai_resolve_credentials_keyring p w k2 hpo henv hkey] at h
        simp at h
        exact ⟨h.1, k2, Or.inr (Or.inl rfl), h.2⟩
    · rw [ai_resolve_credentials_env p w k hpo henv] at h
      simp at h
      exact ⟨h.1, k, Or.inl rfl, h.2⟩

theorem ac_setApiKey_block_mem (w : World) (v : String)
    (h : Event.setApiKey v ∈ (ac_resolve_credentials w).1) :
    w.env "OPENAI_KEY" = some v ∨
    w.keyring "autocommit" "openai_key" = some v ∨
    v = w.getpassSecret := by
  rcases henv : w.env "OPENAI_KEY" with _ | k
  · rcases hkey : w.keyring "autocommit" "openai_key" with _ | k2
    · by_cases hans : pyLower w.askUserAnswer = "y"
      · rw [ac_resolve_credentials_enroll w henv hkey hans] at h
        simp at h
        exact Or.inr (Or.inr h)
      · rw [ac_resolve_credentials_decline w henv hkey hans] at h
        simp at h
    · rw [ac_resolve_credentials_keyring w k2 henv hkey] at h
      simp at h
      subst h
      exact Or.inr (Or.inl rfl)
  · rw [ac_resolve_credentials_env w k henv] at h
    simp at h
    subst h
    exact Or.inl rfl

theorem ai_main_rest_tail (a : AiArgs) (w : World) (p : String) (evs : List Event) :
    ∃ tail, (ai_main_rest a w p evs).2 = evs ++ Event.gitDiffRead :: tail ∧
      tail.all (fun e => !e.isCredEvent) = true ∧
      tail.all (fun e => !e.isGitDiffRead) = true := by
  rcases ai_main_rest_spec a w p evs with ⟨hd, hr⟩ | ⟨hd, msgs, base, hm, hb, hc⟩
  · exact ⟨[Event.printOut "No changes to commit."], by simp [hr], rfl, rfl⟩
  · rcases hc with ⟨e, he, hr⟩ | ⟨resp, he, hcm, hr⟩ | ⟨resp, he, hcm, hr⟩
    · exact ⟨[Event.modelCall a.model msgs base,
        Event.logDebug ("Error calling LiteLLM API: " ++ e)], by simp [hr], rfl, rfl⟩
    · exact ⟨[Event.modelCall a.model msgs base,
        Event.runCommit (["git", "commit"] ++ (pySplit resp "\n\n").map (fun q => "-m " ++ q))],
        by simp [hr], rfl, rfl⟩
    · exact ⟨[Event.modelCall a.model msgs base, Event.printOut resp], by simp [hr], rfl, rfl⟩

theorem ac_main_rest_tail (a : AcArgs) (w : World) (evs : List Event) :
    ∃ tail, (ac_main_rest a w evs).2 = evs ++ Event.gitDiffRead :: tail ∧
      tail.all (fun e => !e.isCredEvent) = true ∧
      tail.all (fun e => !e.isGitDiffRead) = true := by
  rcases ac_main_rest_spec a w evs with ⟨hl, hr⟩ | ⟨char_limit, hl, hcase⟩
  · exact ⟨[Event.printOut ("Invalid model: " ++ a.model)], by simp [hr], rfl, rfl⟩
  · rcases hcase with ⟨hd, hr⟩ | ⟨hd, msgs, hm, hc⟩
    · exact ⟨[Event.printOut "No changes to commit."], by simp [hr], rfl, rfl⟩
    · rcases hc with ⟨e, he, hr⟩ | ⟨resp, he, hcm, hr⟩ | ⟨resp, he, hcm, hr⟩
      · exact ⟨[Event.modelCall a.model msgs none,
          Event.logDebug ("Error calling OpenAI API: " ++ e)], by simp [hr], rfl, rfl⟩
      · exact ⟨[Event.modelCall a.model msgs none,
          Event.runCommit (["git", "commit"] ++ (pySplit resp "\n\n").map (fun q => "-m " ++ q))],
          by simp [hr], rfl, rfl⟩
      · exact ⟨[Event.modelCall a.model msgs none, Event.printOut resp], by simp [hr], rfl, rfl⟩

theorem no_cred_after_diff_of_no_diff (l : List Event)
    (h : l.all (fun e => !e.isGitDiffRead) = true) : no_cred_after_diff l = true := by
  unfold no_cred_after_diff
  have hnil : l.dropWhile (fun e => !e.isGitDiffRead) = [] := by
    induction l with
    | nil => rfl
    | cons e es ih =>
      simp only [List.all_cons, Bool.and_eq_true] at h
      rw [List.dropWhile_cons, if_pos h.1]
      exact ih h.2
  rw [hnil]
  rfl

theorem no_cred_after_diff_append (l1 tail : List Event)
    (h1 : l1.all (fun e => !e.isGitDiffRead) = true)
    (h2 : tail.all (fun e => !e.isCredEvent) = true) :
    no_cred_after_diff (l1 ++ Event.gitDiffRead :: tail) = true := by
  unfold no_cred_after_diff
  have hdrop : (l1 ++ Event.gitDiffRead :: tail).dropWhile (fun e => !e.isGitDiffRead)
      = Event.gitDiffRead :: tail := by
    induction l1 with
    | nil =>
      rw [List.nil_append, List.dropWhile_cons]
      simp [Event.isGitDiffRead]
    | cons e es ih =>
      simp only [List.all_cons, Bool.and_eq_true] at h1
      rw [List.cons_append, List.dropWhile_cons, if_pos h1.1]
      exact ih h1.2
  rw [hdrop]
  simpa using h2

theorem bnot_keyring_of_bnot_cred (e : Event) (h : (!e.isCredEvent) = true) :
    (!e.isKeyringAccess) = true := by
  cases e <;> simp_all [Event.isCredEvent, Event.isKeyringAccess]

theorem ai_main_all (a : AiArgs) (w : World) (q : Event → Bool)
    (hEarly : ∀ e, Event.isEarly e = true → q e = true)
    (hg : q Event.gitDiffRead = true)
    (hmc : ∀ m ms b, q (Event.modelCall m ms b) = true)
    (hld : ∀ s, q (Event.logDebug s) = true)
    (hpr : ∀ s, q (Event.printOut s) = true)
    (hrc : ∀ resp, w.completionResult = Except.ok resp →
        q (Event.runCommit
            (["git", "commit"] ++ (pySplit resp "\n\n").map (fun x => "-m " ++ x))) = true) :
    (ai_commit_gen_main a w).2.all q = true := by
  rcases ai_main_spec a w with ⟨hn, hmain⟩ | ⟨p, hp, hcase⟩
  · rw [hmain]
    simp [hpr]
  · rcases hcase with ⟨evs, he, hmain⟩ | ⟨evs, he, hmain⟩
    · have hEv := ai_resolve_credentials_all_isEarly p w
      rw [he] at hEv
      have hq : evs.all q = true := list_allImp hEarly hEv
      rw [hmain]
      exact hq
    · have hEv := ai_resolve_credentials_all_isEarly p w
      rw [he] at hEv
      have hq : evs.all q = true := list_allImp hEarly hEv
      rw [hmain]
      rcases ai_main_rest_spec a w p evs with ⟨hd, hr⟩ | ⟨hd, msgs, base, hm, hb, hc⟩
      · rw [hr]
        simp [List.all_append, hq, hg, hpr]
      · rcases hc with ⟨e, he2, hr⟩ | ⟨resp, he2, hcm, hr⟩ | ⟨resp, he2, hcm, hr⟩
        · rw [hr]
          simp [List.all_append, hq, hg, hmc, hld]
        · rw [hr]
          have hq2 := hrc resp he2
          simp [List.all_append, hq, hg, hmc] at hq2 ⊢
          exact hq2
        · rw [hr]
          simp [List.all_append, hq, hg, hmc, hpr]

theorem ac_main_all (a : AcArgs) (w : World) (q : Event → Bool)
    (hEarly : ∀ e, Event.isEarly e = true → q e = true)
    (hg : q Event.gitDiffRead = true)
    (hmc : ∀ m ms b, q (Event.modelCall m ms b) = true)
    (hld : ∀ s, q (Event.logDebug s) = true)
    (hpr : ∀ s, q (Event.printOut s) = true)
    (hrc : ∀ resp, w.completionResult = Except.ok resp →
        q (Event.runCommit
            (["git", "commit"] ++ (pySplit resp "\n\n").map (fun x => "-m " ++ x))) = true) :
    (autocommit_main a w).2.all q = true := by
  rcases ac_main_spec a w with ⟨evs, he, hmain⟩ | ⟨evs, he, hmain⟩
  · have hEv := ac_resolve_credentials_all_isEarly w
    rw [he] at hEv
    have hq : evs.all q = true := list_allImp hEarly hEv
    rw [hmain]
    exact hq
  · have hEv := ac_resolve_credentials_all_isEarly w
    rw [he] at hEv
    have hq : evs.all q = true := list_allImp hEarly hEv
    rw [hmain]
    rcases ac_main_rest_spec a w evs with ⟨hl, hr⟩ | ⟨cl, hl, hcase2⟩
    · rw [hr]
      simp [List.all_append, hq, hg, hpr]
    · rcases hcase2 with ⟨hd, hr⟩ | ⟨hd, msgs, hm, hc⟩
      · rw [hr]
        simp [List.all_append, hq, hg, hpr]
      · rcases hc with ⟨e, he2, hr⟩ | ⟨resp, he2, hcm, hr⟩ | ⟨resp, he2, hcm, hr⟩
        · rw [hr]
          simp [List.all_append, hq, hg, hmc, hld]
        · rw [hr]
          have hq2 := hrc resp he2
          simp [List.all_append, hq, hg, hmc] at hq2 ⊢
          exact hq2
        · rw [hr]
          simp [List.all_append, hq, hg, hmc, hpr]

theorem ai_runCommit_mem (a : AiArgs) (w : World) (argv : List String)
    (h : Event.runCommit argv ∈ (ai_commit_gen_main a w).2) :
    ∃ resp, w.completionResult = Except.ok resp ∧
      argv = ["git", "commit"] ++ (pySplit resp "\n\n").map (fun q => "-m " ++ q) := by
  rcases ai_main_spec a w with ⟨hn, hmain⟩ | ⟨p0, hp0, hcase⟩
  · rw [hmain] at h
    simp at h
  · rcases hcase with ⟨evs, he, hmain⟩ | ⟨evs, he, hmain⟩
    · have hEv := ai_resolve_credentials_all_isEarly p0 w
      rw [he] at hEv
      rw [hmain] at h
      have := (List.all_eq_true.mp hEv) _ h
      simp [Event.isEarly] at this
    · have hEv := ai_resolve_credentials_all_isEarly p0 w
      rw [he] at hEv
      rw [hmain] at h
      rcases ai_main_rest_spec a w p0 evs with ⟨hd, hr⟩ | ⟨hd, msgs, base, hm, hb, hc⟩
      · rw [hr] at h
        simp only [List.mem_append, List.mem_cons, List.mem_singleton] at h
        rcases h with h | h | h
        · have := (List.all_eq_true.mp hEv) _ h
          simp [Event.isEarly] at this
        · cases h
        · simp at h
      · rcases hc with ⟨e, he2, hr⟩ | ⟨resp, he2, hcm, hr⟩ | ⟨resp, he2, hcm, hr⟩
        · rw [hr] at h
          simp only [List.mem_append, List.mem_cons, List.mem_singleton] at h
          rcases h with h | h | h | h
          · have := (List.all_eq_true.mp hEv) _ h
            simp [Event.isEarly] at this
          · cases h
          · cases h
          · simp at h
        · rw [hr] at h
          simp only [List.mem_append, List.mem_cons, List.mem_singleton] at h
          rcases h with h | h | h | h
          · have := (List.all_eq_true.mp hEv) _ h
            simp [Event.isEarly] at this
          · cases h
          · cases h
          · refine ⟨resp, he2, ?_⟩
            simp at h
            rw [h]
            rfl
        · rw [hr] at h
          simp only [List.mem_append, List.mem_cons, List.mem_singleton] at h
          rcases h with h | h | h | h
          · have := (List.all_eq_true.mp hEv) _ h
            simp [Event.isEarly] at this
          · cases h
          · cases h
          · simp at h

theorem ac_runCommit_mem (a : AcArgs) (w : World) (argv : List String)
    (h : Event.runCommit argv ∈ (autocommit_main a w).2) :
    ∃ resp, w.completionResult = Except.ok resp ∧
      argv = ["git", "commit"] ++ (pySplit resp "\n\n").map (fun q => "-m " ++ q) := by
  rcases ac_main_spec a w with ⟨evs, he, hmain⟩ | ⟨evs, he, hmain⟩
  · have hEv := ac_resolve_credentials_all_isEarly w
    rw [he] at hEv
    rw [hmain] at h
    have := (List.all_eq_true.mp hEv) _ h
    simp [Event.isEarly] at this
  · have hEv := ac_resolve_credentials_all_isEarly w
    rw [he] at hEv
    rw [hmain] at h
    rcases ac_main_rest_spec a w evs with ⟨hl, hr⟩ | ⟨cl, hl, hcase2⟩
    · rw [hr] at h
      simp only [List.mem_append, List.mem_cons, List.mem_singleton] at h
      rcases h with h | h | h
      · have := (List.all_eq_true.mp hEv) _ h
        simp [Event.isEarly] at this
      · cases h
      · simp at h
    · rcases hcase2 with ⟨hd, hr⟩ | ⟨hd, msgs, hm, hc⟩
      · rw [hr] at h
        simp only [List.mem_append, List.mem_cons, List.mem_singleton] at h
        rcases h with h | h | h
        · have := (List.all_eq_true.mp hEv) _ h
          simp [Event.isEarly] at this
        · cases h
        · simp at h
      · rcases hc with ⟨e, he2, hr⟩ | ⟨resp, he2, hcm, hr⟩ | ⟨resp, he2, hcm, hr⟩
        · rw [hr] at h
          simp only [List.mem_append, List.mem_cons, List.mem_singleton] at h
          rcases h with h | h | h | h
          · have := (List.all_eq_true.mp hEv) _ h
            simp [Event.isEarly] at this
          · cases h
          · cases h
          · simp at h
        · rw [hr] at h
          simp only [List.mem_append, List.mem_cons, List.mem_singleton] at h
          rcases h with h | h | h | h
          · have := (List.all_eq_true.mp hEv) _ h
            simp [Event.isEarly] at this
          · cases h
          · cases h
          · refine ⟨resp, he2, ?_⟩
            simp at h
            rw [h]
            rfl
        · rw [hr] at h
          simp only [List.mem_append, List.mem_cons, List.mem_singleton] at h
          rcases h with h | h | h | h
          · have := (List.all_eq_true.mp hEv) _ h
            simp [Event.isEarly] at this
          · cases h
          · cases h
          · simp at h

/-! ### Claims -/

/-- C9: when the prompt argument is the empty string, both prompt
builders fall back to the default prompt text instead of using the
empty string as the literal prompt: `ai_choose_prompt` returns the
default preset, and `ac_build_prompt` produces the same default
template as when no prompt is given at all. -/
theorem claim9_empty_prompt_falls_back :
    (∀ last_commits, ai_choose_prompt "" last_commits = prompts_default) ∧
    (∀ root_dir last_commits git_diff,
      ac_build_prompt (some "") root_dir last_commits git_diff =
        ac_build_prompt none root_dir last_commits git_diff) := by
  constructor
  · intro lc
    simp [ai_choose_prompt, prompts]
  · intro r l g
    simp [ac_build_prompt]

/-- C6: for a run whose model maps to the local `ollama` provider, the
dispatcher performs no credential-resolution event at all, and every
completion request carries the fixed local endpoint
`http://localhost:11434` as its base URL. -/
theorem claim6_local_provider_skips_credentials (a : AiArgs) (w : World)
    (h : get_provider a.model = some "ollama") :
    (ai_commit_gen_main a w).2.all (fun e => !e.isCredEvent) = true ∧
    (ai_commit_gen_main a w).2.all Event.usesLocalEndpoint = true := by
  rcases ai_main_spec a w with ⟨hn, _⟩ | ⟨p, hp, hcase⟩
  · rw [h] at hn; cases hn
  · have hpo : p = "ollama" := by rw [h] at hp; injection hp with hq; exact hq.symm
    subst hpo
    have hcred := ai_resolve_credentials_ollama w
    rcases hcase with ⟨evs, he, _⟩ | ⟨evs, he, hmain⟩
    · rw [hcred] at he
      cases he
    · rw [hcred] at he
      obtain ⟨rfl, -⟩ : evs = [] ∧ (none : Option Nat) = none := by
        constructor <;> [injection he.symm; rfl]
      rw [hmain]
      rcases ai_main_rest_spec a w "ollama" [] with ⟨hd, hr⟩ | ⟨hd, msgs, base, hm, hb, hc⟩
      · rw [hr]; exact ⟨rfl, rfl⟩
      · have hb' : base = some "http://localhost:11434" := by simpa using hb
        subst hb'
        rcases hc with ⟨e, he2, hr⟩ | ⟨resp, he2, hcm, hr⟩ | ⟨resp, he2, hcm, hr⟩ <;>
          rw [hr] <;> exact ⟨rfl, rfl⟩

/-- C7: when the provider-specific environment variable holds a key,
neither program performs any read from or write to the persistent
secret store during the whole run. -/
theorem claim7_env_key_no_keyring_access (a1 : AiArgs) (w1 : World) (p k1 : String)
    (a2 : AcArgs) (w2 : World) (k2 : String)
    (h1 : get_provider a1.model = some p)
    (h2 : w1.env (env_var_for p) = some k1)
    (h3 : w2.env "OPENAI_KEY" = some k2) :
    (ai_commit_gen_main a1 w1).2.all (fun e => !e.isKeyringAccess) = true ∧
    (autocommit_main a2 w2).2.all (fun e => !e.isKeyringAccess) = true := by
  constructor
  · rcases ai_main_spec a1 w1 with ⟨hn, hmain⟩ | ⟨p0, hp0, hcase⟩
    · rw [h1] at hn; cases hn
    · have hpp : p = p0 := by rw [h1] at hp0; exact Option.some.inj hp0
      subst hpp
      by_cases hpo : p = "ollama"
      · subst hpo
        have hcred := ai_resolve_credentials_ollama w1
        rcases hcase with ⟨evs, he, _⟩ | ⟨evs, he, hmain⟩
        · rw [hcred] at he; cases he
        · rw [hcred] at he; cases he
          obtain ⟨tail, htr, hcr, -⟩ := ai_main_rest_tail a1 w1 "ollama" []
          have htail : tail.all (fun e => !e.isKeyringAccess) = true :=
            list_allImp bnot_keyring_of_bnot_cred hcr
          rw [hmain, htr]
          simp only [List.nil_append, List.all_cons, htail]
          rfl
      · have hcred := ai_resolve_credentials_env p w1 k1 hpo h2
        rcases hcase with ⟨evs, he, _⟩ | ⟨evs, he, hmain⟩
        · rw [hcred] at he; cases he
        · rw [hcred] at he; cases he
          obtain ⟨tail, htr, hcr, -⟩ := ai_main_rest_tail a1 w1 p
            [Event.envRead (env_var_for p), Event.envWrite (env_var_for p) (pyStrip k1)]
          have htail : tail.all (fun e => !e.isKeyringAccess) = true :=
            list_allImp bnot_keyring_of_bnot_cred hcr
          rw [hmain, htr]
          simp only [List.all_append, List.all_cons, htail]
          rfl
  · have hcred := ac_resolve_credentials_env w2 k2 h3
    rcases ac_main_spec a2 w2 with ⟨evs, he, _⟩ | ⟨evs, he, hmain⟩
    · rw [hcred] at he; cases he
    · rw [hcred] at he; cases he
      obtain ⟨tail, htr, hcr, -⟩ := ac_main_rest_tail a2 w2
        [Event.envRead "OPENAI_KEY", Event.setApiKey k2]
      have htail : tail.all (fun e => !e.isKeyringAccess) = true :=
        list_allImp bnot_keyring_of_bnot_cred hcr
      rw [hmain, htr]
      simp only [List.all_append, List.all_cons, htail]
      rfl

theorem ai_envWrite_main_mem (a : AiArgs) (w : World) (name v : String)
    (h : Event.envWrite name v ∈ (ai_commit_gen_main a w).2) :
    ∃ p, get_provider a.model = some p ∧
      Event.envWrite name v ∈ (ai_resolve_credentials p w).1 := by
  rcases ai_main_spec a w with ⟨hn, hmain⟩ | ⟨p0, hp0, hcase⟩
  · rw [hmain] at h
    simp at h
  · rcases hcase with ⟨evs, he, hmain⟩ | ⟨evs, he, hmain⟩
    · rw [hmain] at h
      refine ⟨p0, hp0, ?_⟩
      rw [he]
      exact h
    · rw [hmain] at h
      obtain ⟨tail, htr, hcr, -⟩ := ai_main_rest_tail a w p0 evs
      rw [htr] at h
      rcases List.mem_append.mp h with h | h
      · refine ⟨p0, hp0, ?_⟩
        rw [he]
        exact h
      · rcases List.mem_cons.mp h with h | h
        · cases h
        · have := (List.all_eq_true.mp hcr) _ h
          simp [Event.isCredEvent] at this

theorem ac_setApiKey_main_mem (a : AcArgs) (w : World) (v : String)
    (h : Event.setApiKey v ∈ (autocommit_main a w).2) :
    Event.setApiKey v ∈ (ac_resolve_credentials w).1 := by
  rcases ac_main_spec a w with ⟨evs, he, hmain⟩ | ⟨evs, he, hmain⟩
  · rw [hmain] at h
    rw [he]
    exact h
  · rw [hmain] at h
    obtain ⟨tail, htr, hcr, -⟩ := ac_main_rest_tail a w evs
    rw [htr] at h
    rcases List.mem_append.mp h with h | h
    · rw [he]
      exact h
    · rcases List.mem_cons.mp h with h | h
      · cases h
      · have := (List.all_eq_true.mp hcr) _ h
        simp [Event.isCredEvent] at this

/-- C4 (amended): whichever way the credential is resolved —
environment variable, secret store, or interactive entry — the
litellm variant exports the whitespace-stripped secret as the
provider API key, while the size-budgeted variant assigns the
resolved secret to `openai.api_key` exactly as it was obtained,
without trimming. -/
theorem claim4_key_whitespace (a1 : AiArgs) (w1 : World) (a2 : AcArgs) (w2 : World)
    (name v1 v2 : String)
    (hmem1 : Event.envWrite name v1 ∈ (ai_commit_gen_main a1 w1).2)
    (hmem2 : Event.setApiKey v2 ∈ (autocommit_main a2 w2).2) :
    (∃ p secret, get_provider a1.model = some p ∧ name = env_var_for p ∧
       (w1.env (env_var_for p) = some secret ∨
        w1.keyring "ai_commit_gen" (p ++ "_key") = some secret ∨
        secret = w1.getpassSecret) ∧
       v1 = pyStrip secret) ∧
    (w2.env "OPENAI_KEY" = some v2 ∨
     w2.keyring "autocommit" "openai_key" = some v2 ∨
     v2 = w2.getpassSecret) := by
  constructor
  · obtain ⟨p, hp, hblock⟩ := ai_envWrite_main_mem a1 w1 name v1 hmem1
    obtain ⟨hname, secret, hsrc, hval⟩ := ai_envWrite_block_mem p w1 name v1 hblock
    exact ⟨p, secret, hp, hname, hsrc, hval⟩
  · exact ac_setApiKey_block_mem w2 v2 (ac_setApiKey_main_mem a2 w2 v2 hmem2)

/-- C1 (amended): for a model response made of three paragraphs `t`,
`b1`, `b2` separated by blank lines, every commit invocation of either
program carries exactly three message arguments after `git commit`,
but each is a single argv entry whose text is `"-m "` immediately
followed by one paragraph — the `-m` flag and the paragraph text are
not distinct argv entries. -/
theorem claim1_commit_argv_joined (a1 : AiArgs) (w1 : World) (a2 : AcArgs) (w2 : World)
    (t b1 b2 : String) (argv1 argv2 : List String)
    (h1 : w1.completionResult = Except.ok (t ++ "\n\n" ++ b1 ++ "\n\n" ++ b2))
    (h2 : w2.completionResult = Except.ok (t ++ "\n\n" ++ b1 ++ "\n\n" ++ b2))
    (hsplit : pySplit (t ++ "\n\n" ++ b1 ++ "\n\n" ++ b2) "\n\n" = [t, b1, b2])
    (hmem1 : Event.runCommit argv1 ∈ (ai_commit_gen_main a1 w1).2)
    (hmem2 : Event.runCommit argv2 ∈ (autocommit_main a2 w2).2) :
    argv1 = ["git", "commit", "-m " ++ t, "-m " ++ b1, "-m " ++ b2] ∧
    argv2 = ["git", "commit", "-m " ++ t, "-m " ++ b1, "-m " ++ b2] := by
  constructor
  · obtain ⟨resp, hok, hargv⟩ := ai_runCommit_mem a1 w1 argv1 hmem1
    rw [h1] at hok
    injection hok with hok
    subst hok
    rw [hargv, hsplit]
    simp
  · obtain ⟨resp, hok, hargv⟩ := ac_runCommit_mem a2 w2 argv2 hmem2
    rw [h2] at hok
    injection hok with hok
    subst hok
    rw [hargv, hsplit]
    simp

/-- C3 (amended): for an unrecognized model identifier both variants
exit with status 1 and never issue a completion request; the litellm
variant stops before any credential or diff event (its whole trace is
the diagnostic message), while the size-budgeted variant checks the
model only after credential resolution and the diff read. -/
theorem claim3_invalid_model (a1 : AiArgs) (w1 : World) (a2 : AcArgs) (w2 : World)
    (h1 : get_provider a1.model = none) (h2 : get_character_limit a2.model = none) :
    ai_commit_gen_main a1 w1 = (1, [Event.printOut ("Invalid model: " ++ a1.model)]) ∧
    (autocommit_main a2 w2).1 = 1 ∧
    (autocommit_main a2 w2).2.all (fun e => !e.isModelCall) = true := by
  refine ⟨?_, ?_, ?_⟩
  · rcases ai_main_spec a1 w1 with ⟨hn, hmain⟩ | ⟨p0, hp0, hcase⟩
    · exact hmain
    · rw [h1] at hp0; cases hp0
  · rcases ac_main_spec a2 w2 with ⟨evs, he, hmain⟩ | ⟨evs, he, hmain⟩
    · rw [hmain]
    · rw [hmain]
      rcases ac_main_rest_spec a2 w2 evs with ⟨hl, hr⟩ | ⟨cl, hl, hcase2⟩
      · rw [hr]
      · rw [h2] at hl; cases hl
  · rcases ac_main_spec a2 w2 with ⟨evs, he, hmain⟩ | ⟨evs, he, hmain⟩
    · have hEv := ac_resolve_credentials_all_isEarly w2
      rw [he] at hEv
      rw [hmain]
      exact list_allImp (fun e he' => by simpa using isEarly_not_modelCall e he') hEv
    · have hEv := ac_resolve_credentials_all_isEarly w2
      rw [he] at hEv
      have hq : evs.all (fun e => !e.isModelCall) = true :=
        list_allImp (fun e he' => by simpa using isEarly_not_modelCall e he') hEv
      rw [hmain]
      rcases ac_main_rest_spec a2 w2 evs with ⟨hl, hr⟩ | ⟨cl, hl, hcase2⟩
      · rw [hr]
        simp only [List.all_append, List.all_cons, hq]
        rfl
      · rw [h2] at hl; cases hl

/-- C5 (amended): in any run of either program in which the staged
diff was actually read and came back empty, and (for the size-budgeted
variant) the model identifier is known to the budget table, the
process prints "No changes to commit.", exits with status 0, and never
issues a completion request. -/
theorem claim5_empty_diff_exits_zero (a1 : AiArgs) (w1 : World) (a2 : AcArgs) (w2 : World)
    (h1 : w1.stagedDiff = "") (h2 : w2.stagedDiff = "")
    (h3 : Event.gitDiffRead ∈ (ai_commit_gen_main a1 w1).2)
    (h4 : Event.gitDiffRead ∈ (autocommit_main a2 w2).2)
    (h5 : (get_character_limit a2.model).isSome = true) :
    ((ai_commit_gen_main a1 w1).1 = 0 ∧
     Event.printOut "No changes to commit." ∈ (ai_commit_gen_main a1 w1).2 ∧
     (ai_commit_gen_main a1 w1).2.all (fun e => !e.isModelCall) = true) ∧
    ((autocommit_main a2 w2).1 = 0 ∧
     Event.printOut "No changes to commit." ∈ (autocommit_main a2 w2).2 ∧
     (autocommit_main a2 w2).2.all (fun e => !e.isModelCall) = true) := by
  constructor
  · rcases ai_main_spec a1 w1 with ⟨hn, hmain⟩ | ⟨p0, hp0, hcase⟩
    · rw [hmain] at h3
      simp at h3
    · rcases hcase with ⟨evs, he, hmain⟩ | ⟨evs, he, hmain⟩
      · have hEv := ai_resolve_credentials_all_isEarly p0 w1
        rw [he] at hEv
        rw [hmain] at h3
        have := (List.all_eq_true.mp hEv) Event.gitDiffRead h3
        simp [Event.isEarly] at this
      · rcases ai_main_rest_spec a1 w1 p0 evs with ⟨hd, hr⟩ | ⟨hd, _, _, _, _, _⟩
        · have hEv := ai_resolve_credentials_all_isEarly p0 w1
          rw [he] at hEv
          have hq : evs.all (fun e => !e.isModelCall) = true :=
            list_allImp (fun e he' => by simpa using isEarly_not_modelCall e he') hEv
          rw [hmain, hr]
          refine ⟨rfl, by simp, ?_⟩
          simp only [List.all_append, List.all_cons, hq]
          rfl
        · exact absurd h1 hd
  · rcases ac_main_spec a2 w2 with ⟨evs, he, hmain⟩ | ⟨evs, he, hmain⟩
    · have hEv := ac_resolve_credentials_all_isEarly w2
      rw [he] at hEv
      rw [hmain] at h4
      have := (List.all_eq_true.mp hEv) Event.gitDiffRead h4
      simp [Event.isEarly] at this
    · rcases ac_main_rest_spec a2 w2 evs with ⟨hl, hr⟩ | ⟨cl, hl, hcase2⟩
      · rw [hl] at h5
        simp at h5
      · rcases hcase2 with ⟨hd, hr⟩ | ⟨hd, _⟩
        · have hEv := ac_resolve_credentials_all_isEarly w2
          rw [he] at hEv
          have hq : evs.all (fun e => !e.isModelCall) = true :=
            list_allImp (fun e he' => by simpa using isEarly_not_modelCall e he') hEv
          rw [hmain, hr]
          refine ⟨rfl, by simp, ?_⟩
          simp only [List.all_append, List.all_cons, hq]
          rfl
        · exact absurd h2 hd

/-- C8: in any run of either program whose completion call raises, and
in which the completion request was actually issued, the error is
logged through the debug logger as the very last event (nothing is
retried or printed after it) and the process exits with status 1;
moreover the whole trace contains exactly one completion request. -/
theorem claim8_api_error_exits_one (a1 : AiArgs) (w1 : World) (e1 : String)
    (a2 : AcArgs) (w2 : World) (e2 : String)
    (h1 : w1.completionResult = Except.error e1)
    (h2 : w2.completionResult = Except.error e2)
    (h3 : (ai_commit_gen_main a1 w1).2.any Event.isModelCall = true)
    (h4 : (autocommit_main a2 w2).2.any Event.isModelCall = true) :
    ((ai_commit_gen_main a1 w1).1 = 1 ∧
     (ai_commit_gen_main a1 w1).2.countP Event.isModelCall = 1 ∧
     (ai_commit_gen_main a1 w1).2.getLast? =
       some (Event.logDebug ("Error calling LiteLLM API: " ++ e1))) ∧
    ((autocommit_main a2 w2).1 = 1 ∧
     (autocommit_main a2 w2).2.countP Event.isModelCall = 1 ∧
     (autocommit_main a2 w2).2.getLast? =
       some (Event.logDebug ("Error calling OpenAI API: " ++ e2))) := by
  have hcount : ∀ l : List Event, l.all (fun e => !e.isModelCall) = true →
      l.countP Event.isModelCall = 0 := by
    intro l hl
    rw [List.countP_eq_zero]
    intro e hel
    have := (List.all_eq_true.mp hl) e hel
    simpa using this
  constructor
  · rcases ai_main_spec a1 w1 with ⟨hn, hmain⟩ | ⟨p0, hp0, hcase⟩
    · rw [hmain] at h3
      simp [Event.isModelCall] at h3
    · rcases hcase with ⟨evs, he, hmain⟩ | ⟨evs, he, hmain⟩
      · have hEv := ai_resolve_credentials_all_isEarly p0 w1
        rw [he] at hEv
        rw [hmain] at h3
        rcases List.any_eq_true.mp h3 with ⟨e, hel, hmc⟩
        have := (List.all_eq_true.mp hEv) e hel
        rw [isEarly_not_modelCall e this] at hmc
        cases hmc
      · have hEv := ai_resolve_credentials_all_isEarly p0 w1
        rw [he] at hEv
        have hq : evs.all (fun e => !e.isModelCall) = true :=
          list_allImp (fun e he' => by simpa using isEarly_not_modelCall e he') hEv
        rcases ai_main_rest_spec a1 w1 p0 evs with ⟨hd, hr⟩ | ⟨hd, msgs, base, hm, hb, hc⟩
        · rw [hmain, hr] at h3
          rcases List.any_eq_true.mp h3 with ⟨e, hel, hmc⟩
          simp only [List.mem_append, List.mem_cons, List.mem_singleton] at hel
          rcases hel with hel | hel | hel
          · have := (List.all_eq_true.mp hEv) e hel
            rw [isEarly_not_modelCall e this] at hmc
            cases hmc
          · subst hel; cases hmc
          · simp at hel
            subst hel; cases hmc
        · rcases hc with ⟨e, he2, hr⟩ | ⟨resp, he2, hcm, hr⟩ | ⟨resp, he2, hcm, hr⟩
          · rw [h1] at he2
            injection he2 with he2
            subst he2
            rw [hmain, hr]
            refine ⟨rfl, ?_, ?_⟩
            · simp only [List.countP_append, hcount evs hq]
              rfl
            · have : evs ++ [Event.gitDiffRead, Event.modelCall a1.model msgs base,
                  Event.logDebug ("Error calling LiteLLM API: " ++ e1)] =
                  (evs ++ [Event.gitDiffRead, Event.modelCall a1.model msgs base]) ++
                  [Event.logDebug ("Error calling LiteLLM API: " ++ e1)] := by
                simp
              rw [this, List.getLast?_concat]
          · rw [h1] at he2; cases he2
          · rw [h1] at he2; cases he2
  · rcases ac_main_spec a2 w2 with ⟨evs, he, hmain⟩ | ⟨evs, he, hmain⟩
    · have hEv := ac_resolve_credentials_all_isEarly w2
      rw [he] at hEv
      rw [hmain] at h4
      rcases List.any_eq_true.mp h4 with ⟨e, hel, hmc⟩
      have := (List.all_eq_true.mp hEv) e hel
      rw [isEarly_not_modelCall e this] at hmc
      cases hmc
    · have hEv := ac_resolve_credentials_all_isEarly w2
      rw [he] at hEv
      have hq : evs.all (fun e => !e.isModelCall) = true :=
        list_allImp (fun e he' => by simpa using isEarly_not_modelCall e he') hEv
      rcases ac_main_rest_spec a2 w2 evs with ⟨hl, hr⟩ | ⟨cl, hl, hcase2⟩
      · rw [hmain, hr] at h4
        rcases List.any_eq_true.mp h4 with ⟨e, hel, hmc⟩
        simp only [List.mem_append, List.mem_cons, List.mem_singleton] at hel
        rcases hel with hel | hel | hel
        · have := (List.all_eq_true.mp hEv) e hel
          rw [isEarly_not_modelCall e this] at hmc
          cases hmc
        · subst hel; cases hmc
        · simp at hel
          subst hel; cases hmc
      · rcases hcase2 with ⟨hd, hr⟩ | ⟨hd, msgs, hm, hc⟩
        · rw [hmain, hr] at h4
          rcases List.any_eq_true.mp h4 with ⟨e, hel, hmc⟩
          simp only [List.mem_append, List.mem_cons, List.mem_singleton] at hel
          rcases hel with hel | hel | hel
          · have := (List.all_eq_true.mp hEv) e hel
            rw [isEarly_not_modelCall e this] at hmc
            cases hmc
          · subst hel; cases hmc
          · simp at hel
            subst hel; cases hmc
        · rcases hc with ⟨e, he2, hr⟩ | ⟨resp, he2, hcm, hr⟩ | ⟨resp, he2, hcm, hr⟩
          · rw [h2] at he2
            injection he2 with he2
            subst he2
            rw [hmain, hr]
            refine ⟨rfl, ?_, ?_⟩
            · simp only [List.countP_append, hcount evs hq]
              rfl
            · have : evs ++ [Event.gitDiffRead, Event.modelCall a2.model msgs none,
                  Event.logDebug ("Error calling OpenAI API: " ++ e2)] =
                  (evs ++ [Event.gitDiffRead, Event.modelCall a2.model msgs none]) ++
                  [Event.logDebug ("Error calling OpenAI API: " ++ e2)] := by
                simp
              rw [this, List.getLast?_concat]
          · rw [h2] at he2; cases he2
          · rw [h2] at he2; cases he2

/-- C10: credential resolution — including the interactive enrollment
that stores a freshly entered key — runs before the staged diff is
collected: in every run of either program no credential event follows
the diff-read event; and the concrete enrollment run below ends with
"No changes to commit." and exit status 0 even though it both read
from and wrote to the secret store. -/
theorem claim10_credentials_before_diff (a1 : AiArgs) (w1 : World)
    (a2 : AcArgs) (w2 : World) :
    (no_cred_after_diff (ai_commit_gen_main a1 w1).2 = true ∧
     no_cred_after_diff (autocommit_main a2 w2).2 = true) ∧
    ((autocommit_main acDefaultArgs enrollEmptyDiffWorld).1 = 0 ∧
     Event.printOut "No changes to commit."
       ∈ (autocommit_main acDefaultArgs enrollEmptyDiffWorld).2 ∧
     Event.keyringGet "autocommit" "openai_key"
       ∈ (autocommit_main acDefaultArgs enrollEmptyDiffWorld).2 ∧
     Event.keyringSet "autocommit" "openai_key" "typed-secret"
       ∈ (autocommit_main acDefaultArgs enrollEmptyDiffWorld).2) := by
  refine ⟨⟨?_, ?_⟩, ?_, ?_, ?_, ?_⟩
  · rcases ai_main_spec a1 w1 with ⟨hn, hmain⟩ | ⟨p0, hp0, hcase⟩
    · rw [hmain]
      exact no_cred_after_diff_of_no_diff _ rfl
    · rcases hcase with ⟨evs, he, hmain⟩ | ⟨evs, he, hmain⟩
      · have hEv := ai_resolve_credentials_all_isEarly p0 w1
        rw [he] at hEv
        rw [hmain]
        exact no_cred_after_diff_of_no_diff _
          (list_allImp (fun e he' => by simpa using isEarly_not_gitDiffRead e he') hEv)
      · have hEv := ai_resolve_credentials_all_isEarly p0 w1
        rw [he] at hEv
        obtain ⟨tail, htr, hcr, -⟩ := ai_main_rest_tail a1 w1 p0 evs
        rw [hmain, htr]
        exact no_cred_after_diff_append evs tail
          (list_allImp (fun e he' => by simpa using isEarly_not_gitDiffRead e he') hEv) hcr
  · rcases ac_main_spec a2 w2 with ⟨evs, he, hmain⟩ | ⟨evs, he, hmain⟩
    · have hEv := ac_resolve_credentials_all_isEarly w2
      rw [he] at hEv
      rw [hmain]
      exact no_cred_after_diff_of_no_diff _
        (list_allImp (fun e he' => by simpa using isEarly_not_gitDiffRead e he') hEv)
    · have hEv := ac_resolve_credentials_all_isEarly w2
      rw [he] at hEv
      obtain ⟨tail, htr, hcr, -⟩ := ac_main_rest_tail a2 w2 evs
      rw [hmain, htr]
      exact no_cred_after_diff_append evs tail
        (list_allImp (fun e he' => by simpa using isEarly_not_gitDiffRead e he') hEv) hcr
  · decide
  · decide
  · decide
  · decide

theorem pySlice_length_of_le (s : String) (n : Nat) (h : n ≤ s.length) :
    (pySlice s n).length = n := by
  show (s.data.take n).length = n
  rw [List.length_take]
  exact Nat.min_eq_left h

theorem truncate_diff_length (git_diff : String) (char_limit : Nat)
    (h : char_limit < git_diff.length) :
    (truncate_diff git_diff char_limit).length
      = char_limit + (truncation_marker char_limit).length := by
  unfold truncate_diff
  rw [if_pos h]
  rw [String.length_append, pySlice_length_of_le git_diff char_limit (Nat.le_of_lt h)]

/-- C2 (amended): for a staged diff above the per-model character
budget, the truncated diff embedded into the prompt has length exactly
the budget plus the marker length (the full prompt then adds the fixed
template text and repository metadata around it), and the appended
marker names exactly the budget value used for that model. -/
theorem claim2_truncated_diff_length (model : String) (char_limit : Nat) (git_diff : String)
    (h1 : get_character_limit model = some char_limit)
    (h2 : char_limit < git_diff.length) :
    (truncate_diff git_diff char_limit).length
      = char_limit + (truncation_marker char_limit).length ∧
    truncation_marker char_limit
      = " (cut off at " ++ toString char_limit ++ " characters)." :=
  ⟨truncate_diff_length git_diff char_limit h2, rfl⟩

/-! ### Counterexamples and witnesses -/

/-- C1 counterexample: in a concrete commit-flag run whose response is
"Title\n\nBody line 1\n\nBody line 2", the single commit invocation
carries "-m Title" (flag and paragraph joined in one argv entry) and
has neither "-m" nor "Title" as an argv entry of its own. -/
theorem claim1_counterexample :
    Event.runCommit ["git", "commit", "-m Title", "-m Body line 1", "-m Body line 2"]
      ∈ (ai_commit_gen_main aiCommitArgs titleWorld).2 ∧
    (ai_commit_gen_main aiCommitArgs titleWorld).2.all
      (Event.commitArgvAll
        (fun argv => !argv.contains "-m" && !argv.contains "Title")) = true := by
  constructor <;> decide

theorem claim1_witness :
    titleWorld.completionResult
      = Except.ok ("Title" ++ "\n\n" ++ "Body line 1" ++ "\n\n" ++ "Body line 2") ∧
    pySplit ("Title" ++ "\n\n" ++ "Body line 1" ++ "\n\n" ++ "Body line 2") "\n\n"
      = ["Title", "Body line 1", "Body line 2"] ∧
    Event.runCommit ["git", "commit", "-m Title", "-m Body line 1", "-m Body line 2"]
      ∈ (ai_commit_gen_main aiCommitArgs titleWorld).2 ∧
    Event.runCommit ["git", "commit", "-m Title", "-m Body line 1", "-m Body line 2"]
      ∈ (autocommit_main acCommitArgs titleWorld).2 ∧
    (["git", "commit", "-m Title", "-m Body line 1", "-m Body line 2"]
        = ["git", "commit", "-m " ++ "Title", "-m " ++ "Body line 1", "-m " ++ "Body line 2"] ∧
     ["git", "commit", "-m Title", "-m Body line 1", "-m Body line 2"]
        = ["git", "commit", "-m " ++ "Title", "-m " ++ "Body line 1", "-m " ++ "Body line 2"]) :=
  ⟨rfl, by decide, by decide, by decide,
   claim1_commit_argv_joined aiCommitArgs titleWorld acCommitArgs titleWorld
     "Title" "Body line 1" "Body line 2"
     ["git", "commit", "-m Title", "-m Body line 1", "-m Body line 2"]
     ["git", "commit", "-m Title", "-m Body line 1", "-m Body line 2"]
     rfl rfl (by decide) (by decide) (by decide)⟩

set_option maxRecDepth 4000 in
/-- C2 counterexample: with the default model's 12000-character budget
and a staged diff of 12001 characters, the final prompt that embeds
the truncated diff is strictly longer than budget-plus-marker length,
because the fixed template text surrounds the diff. -/
theorem claim2_counterexample :
    get_character_limit "gpt-3.5-turbo" = some 12000 ∧
    12000 < (String.replicate 12001 'a').length ∧
    ¬ ((ac_build_prompt none (get_root_dir_name none) (ac_get_last_commits none)
          (truncate_diff (String.replicate 12001 'a') 12000)).length
        ≤ 12000 + (truncation_marker 12000).length) := by
  have htr := truncate_diff_length (String.replicate 12001 'a') 12000 (by simp)
  refine ⟨rfl, by simp, ?_⟩
  simp only [ac_build_prompt, ac_prompt_template, get_root_dir_name, ac_get_last_commits,
    String.length_append, htr]
  decide

theorem claim2_witness :
    get_character_limit "gpt-4" = some 25000 ∧
    25000 < (String.replicate 25001 'b').length ∧
    ((truncate_diff (String.replicate 25001 'b') 25000).length
        = 25000 + (truncation_marker 25000).length ∧
     truncation_marker 25000 = " (cut off at " ++ toString 25000 ++ " characters).") :=
  ⟨rfl, by simp,
   claim2_truncated_diff_length "gpt-4" 25000 (String.replicate 25001 'b') rfl (by simp)⟩

/-- C3 counterexample: with a key present in the environment and an
unknown model, the size-budgeted variant still reads the environment
variable, assigns the key, and reads the staged diff before exiting
with status 1 — credential resolution is not skipped. -/
theorem claim3_counterexample :
    (autocommit_main acBadModelArgs envKeyWorld).1 = 1 ∧
    Event.envRead "OPENAI_KEY" ∈ (autocommit_main acBadModelArgs envKeyWorld).2 ∧
    Event.setApiKey "sk-222" ∈ (autocommit_main acBadModelArgs envKeyWorld).2 ∧
    Event.gitDiffRead ∈ (autocommit_main acBadModelArgs envKeyWorld).2 := by
  refine ⟨?_, ?_, ?_, ?_⟩ <;> decide

theorem claim3_witness :
    get_provider aiBadModelArgs.model = none ∧
    get_character_limit acBadModelArgs.model = none ∧
    (ai_commit_gen_main aiBadModelArgs baseWorld
        = (1, [Event.printOut ("Invalid model: " ++ aiBadModelArgs.model)]) ∧
     (autocommit_main acBadModelArgs envKeyWorld).1 = 1 ∧
     (autocommit_main acBadModelArgs envKeyWorld).2.all (fun e => !e.isModelCall) = true) :=
  ⟨by decide, by decide,
   claim3_invalid_model aiBadModelArgs baseWorld acBadModelArgs envKeyWorld
     (by decide) (by decide)⟩

/-- C4 counterexample: the size-budgeted variant uses the key exactly
as found in the environment — surrounding whitespace included — and
the trimmed secret is never used as the API key. -/
theorem claim4_counterexample :
    Event.setApiKey " sk-222 " ∈ (autocommit_main acDefaultArgs paddedKeyWorld).2 ∧
    pyStrip " sk-222 " = "sk-222" ∧
    Event.setApiKey "sk-222" ∉ (autocommit_main acDefaultArgs paddedKeyWorld).2 := by
  refine ⟨?_, ?_, ?_⟩ <;> decide

theorem claim4_witness :
    Event.envWrite "OPENAI_API_KEY" (pyStrip " entered ")
      ∈ (ai_commit_gen_main aiDefaultArgs enrollWorld).2 ∧
    Event.setApiKey " entered " ∈ (autocommit_main acDefaultArgs enrollWorld).2 ∧
    ((∃ p secret, get_provider aiDefaultArgs.model = some p ∧
        "OPENAI_API_KEY" = env_var_for p ∧
        (enrollWorld.env (env_var_for p) = some secret ∨
         enrollWorld.keyring "ai_commit_gen" (p ++ "_key") = some secret ∨
         secret = enrollWorld.getpassSecret) ∧
        pyStrip " entered " = pyStrip secret) ∧
     (enrollWorld.env "OPENAI_KEY" = some " entered " ∨
      enrollWorld.keyring "autocommit" "openai_key" = some " entered " ∨
      " entered " = enrollWorld.getpassSecret)) :=
  ⟨by decide, by decide,
   claim4_key_whitespace aiDefaultArgs enrollWorld acDefaultArgs enrollWorld
     "OPENAI_API_KEY" (pyStrip " entered ") " entered " (by decide) (by decide)⟩

/-- C5 counterexample: with an unknown model and an empty staged diff,
the size-budgeted variant reads the (empty) diff but exits with status
1 and never prints the nothing-to-commit message. -/
theorem claim5_counterexample :
    emptyDiffWorld.stagedDiff = "" ∧
    Event.gitDiffRead ∈ (autocommit_main acBadModelArgs emptyDiffWorld).2 ∧
    (autocommit_main acBadModelArgs emptyDiffWorld).1 = 1 ∧
    Event.printOut "No changes to commit."
      ∉ (autocommit_main acBadModelArgs emptyDiffWorld).2 := by
  refine ⟨?_, ?_, ?_, ?_⟩ <;> decide

theorem claim5_witness :
    emptyDiffWorld.stagedDiff = "" ∧
    Event.gitDiffRead ∈ (ai_commit_gen_main aiDefaultArgs emptyDiffWorld).2 ∧
    Event.gitDiffRead ∈ (autocommit_main acDefaultArgs emptyDiffWorld).2 ∧
    (get_character_limit acDefaultArgs.model).isSome = true ∧
    (((ai_commit_gen_main aiDefaultArgs emptyDiffWorld).1 = 0 ∧
      Event.printOut "No changes to commit." ∈ (ai_commit_gen_main aiDefaultArgs emptyDiffWorld).2 ∧
      (ai_commit_gen_main aiDefaultArgs emptyDiffWorld).2.all (fun e => !e.isModelCall) = true) ∧
     ((autocommit_main acDefaultArgs emptyDiffWorld).1 = 0 ∧
      Event.printOut "No changes to commit." ∈ (autocommit_main acDefaultArgs emptyDiffWorld).2 ∧
      (autocommit_main acDefaultArgs emptyDiffWorld).2.all (fun e => !e.isModelCall) = true)) :=
  ⟨rfl, by decide, by decide, by decide,
   claim5_empty_diff_exits_zero aiDefaultArgs emptyDiffWorld acDefaultArgs emptyDiffWorld
     rfl rfl (by decide) (by decide) (by decide)⟩

theorem claim6_witness :
    get_provider aiOllamaArgs.model = some "ollama" ∧
    ((ai_commit_gen_main aiOllamaArgs baseWorld).2.all (fun e => !e.isCredEvent) = true ∧
     (ai_commit_gen_main aiOllamaArgs baseWorld).2.all Event.usesLocalEndpoint = true) :=
  ⟨by decide, claim6_local_provider_skips_credentials aiOllamaArgs baseWorld (by decide)⟩

theorem claim7_witness :
    get_provider aiDefaultArgs.model = some "openai" ∧
    envKeyWorld.env (env_var_for "openai") = some "sk-111" ∧
    envKeyWorld.env "OPENAI_KEY" = some "sk-222" ∧
    ((ai_commit_gen_main aiDefaultArgs envKeyWorld).2.all (fun e => !e.isKeyringAccess) = true ∧
     (autocommit_main acDefaultArgs envKeyWorld).2.all (fun e => !e.isKeyringAccess) = true) :=
  ⟨by decide, by decide, by decide,
   claim7_env_key_no_keyring_access aiDefaultArgs envKeyWorld "openai" "sk-111"
     acDefaultArgs envKeyWorld "sk-222" (by decide) (by decide) (by decide)⟩

theorem claim8_witness :
    apiErrorWorld.completionResult = Except.error "boom" ∧
    (ai_commit_gen_main aiDefaultArgs apiErrorWorld).2.any Event.isModelCall = true ∧
    (autocommit_main acDefaultArgs apiErrorWorld).2.any Event.isModelCall = true ∧
    (((ai_commit_gen_main aiDefaultArgs apiErrorWorld).1 = 1 ∧
      (ai_commit_gen_main aiDefaultArgs apiErrorWorld).2.countP Event.isModelCall = 1 ∧
      (ai_commit_gen_main aiDefaultArgs apiErrorWorld).2.getLast? =
        some (Event.logDebug ("Error calling LiteLLM API: " ++ "boom"))) ∧
     ((autocommit_main acDefaultArgs apiErrorWorld).1 = 1 ∧
      (autocommit_main acDefaultArgs apiErrorWorld).2.countP Event.isModelCall = 1 ∧
      (autocommit_main acDefaultArgs apiErrorWorld).2.getLast? =
        some (Event.logDebug ("Error calling OpenAI API: " ++ "boom")))) :=
  ⟨rfl, by decide, by decide,
   claim8_api_error_exits_one aiDefaultArgs apiErrorWorld "boom"
     acDefaultArgs apiErrorWorld "boom" rfl rfl (by decide) (by decide)⟩

end Autocommit
